import Mathlib

/-!
Verification of the route-generation pipeline of the route-sniffer
repository: a shallow embedding of the POI aggregation, ranking, merge and
deduplication logic (`src/lib/maps/places.ts`), the walking-directions
request construction and multi-leg aggregation (`src/lib/maps/directions.ts`),
the orchestrating server action (`src/app/(app)/recommendations/actions.ts`)
and the haversine distance (`src/lib/maps/geocoding.ts`), together with
theorems settling the specified behavioural properties.

Numbers that the JavaScript source manipulates as IEEE doubles are modelled
as exact rationals (for data plumbing and comparisons) or reals (for the
trigonometric haversine computation).
-/

namespace RouteSniffer

/-- Coordinates as in `types/maps`: a latitude/longitude pair. -/
structure Coordinates where
  lat : ℚ
  lng : ℚ
deriving DecidableEq

/-- A place as built by `findNearbyPOIs` in `src/lib/maps/places.ts`:
the transform of one Places-API result, including the derived
`distanceFromStart`. -/
structure Place where
  placeId : String
  name : String
  location : Coordinates
  vicinity : String
  rating : Option ℚ
  userRatingsTotal : Option ℕ
  types : List String
  openingHoursOpenNow : Option Bool
  distanceFromStart : ℚ
deriving DecidableEq

/-- JavaScript truthiness of the optional `rating` field as used by
`a.rating && b.rating` in the sort comparator: an absent rating and a
rating of `0` are both falsy. -/
def truthyRating : Option ℚ → Bool
  | none => false
  | some r => r != 0

/-- The effective distance used by the comparator line
`const distA = a.distanceFromStart || Infinity`: a `distanceFromStart`
of `0` (falsy) is replaced by `Infinity`, encoded here as `none`. -/
def effDist (p : Place) : Option ℚ :=
  if p.distanceFromStart = 0 then none else some p.distanceFromStart

/-- Sign of the rational difference `x - y`, as the sort machinery reads a
numeric comparator return value. -/
def compareQ (x y : ℚ) : Ordering :=
  if x < y then Ordering.lt else if y < x then Ordering.gt else Ordering.eq

/-- Sign of `distA - distB` where either side may be `Infinity` (`none`);
`Infinity - Infinity` is `NaN`, which the sort treats as `0` (equal). -/
def compareDist (a b : Place) : Ordering :=
  match effDist a, effDist b with
  | some x, some y => compareQ x y
  | some _, none => Ordering.lt
  | none, some _ => Ordering.gt
  | none, none => Ordering.eq

/-- The sort comparator of `findNearbyPOIs` (places.ts lines 101-112):
when both ratings are truthy and their difference exceeds `0.5` the rating
difference decides; otherwise the effective distances decide. -/
def comparePlaces (a b : Place) : Ordering :=
  if truthyRating a.rating && truthyRating b.rating then
    if 1/2 < |b.rating.getD 0 - a.rating.getD 0| then
      compareQ (b.rating.getD 0 - a.rating.getD 0) 0
    else compareDist a b
  else compareDist a b

/-- Stable insertion of one element into an already ranked list: the new
element goes before the first element it does not compare strictly greater
than, matching the stability guarantee of `Array.prototype.sort`. -/
def insertPlace (x : Place) : List Place → List Place
  | [] => [x]
  | y :: ys =>
    if comparePlaces x y = Ordering.gt then y :: insertPlace x ys
    else x :: y :: ys

/-- The stable sort `places.sort(comparator)` of `findNearbyPOIs`. -/
def sortPlaces : List Place → List Place
  | [] => []
  | x :: xs => insertPlace x (sortPlaces xs)

/-- `m.any (q => q.placeId === pid)`: whether an accumulated JS `Map`
already holds the key `pid`. -/
def hasKey (m : List Place) (pid : String) : Bool :=
  m.any (fun q => q.placeId == pid)

/-- One `Map.set` step of `new Map(allPlaces.map(p => [p.placeId, p]))`:
a fresh key is appended (JS `Map` iterates in key-insertion order), an
existing key keeps its position but its value is overwritten. -/
def insertKeyed (m : List Place) (p : Place) : List Place :=
  if hasKey m p.placeId then
    m.map (fun q => if q.placeId == p.placeId then p else q)
  else m ++ [p]

/-- `Array.from(new Map(allPlaces.map(p => [p.placeId, p])).values())`:
deduplication by `placeId` via a JS `Map` built left to right
(places.ts line 182). -/
def dedupByPlaceId (ps : List Place) : List Place :=
  ps.foldl insertKeyed []

/-- The entries of a list whose `placeId` equals `pid`. -/
def filterKey (ps : List Place) (pid : String) : List Place :=
  ps.filter (fun q => q.placeId == pid)

/-- Errors a category search (`findNearbyPOIs`) can throw. -/
inductive SearchError
  | missingApiKey
  | radiusTooLarge
  | httpError
  | requestDenied
  | invalidRequest
  | unexpectedStatus
deriving DecidableEq

/-- The record returned by `findAllDogWalkingPOIs`. -/
structure POIResults where
  parks : List Place
  cafes : List Place
  dogParks : List Place
  all : List Place
deriving DecidableEq

/-- `findAllDogWalkingPOIs` (places.ts lines 164-190), with the outcome of
each of the three concurrent category searches passed in: `Promise.all`
rejects as soon as any branch rejects, so the aggregate is an error
whenever any input is; on three successes the lists are concatenated in
parks-cafes-dogParks order and deduplicated by `placeId`. -/
def findAllDogWalkingPOIs (parks cafes dogParks : Except SearchError (List Place)) :
    Except SearchError POIResults :=
  match parks, cafes, dogParks with
  | Except.ok p, Except.ok c, Except.ok d =>
      Except.ok ⟨p, c, d, dedupByPlaceId (p ++ c ++ d)⟩
  | Except.error e, _, _ => Except.error e
  | _, Except.error e, _ => Except.error e
  | _, _, Except.error e => Except.error e

/-- Whether an `Except` is a success. -/
def exceptOk {ε α : Type} : Except ε α → Bool
  | Except.ok _ => true
  | Except.error _ => false

/-- A waypoint as passed to `getWalkingDirections` in
`src/lib/maps/directions.ts`. -/
structure Waypoint where
  lat : ℚ
  lng : ℚ
  name : String
deriving DecidableEq

/-- One turn-by-turn step of a directions leg, as transformed by
`getWalkingDirections`. -/
structure DirectionStep where
  distance : ℚ
  duration : ℚ
  instruction : String
  startLocation : Coordinates
  endLocation : Coordinates
  polyline : String
deriving DecidableEq

/-- One leg of a Directions-API route: distance/duration values, the
leg-level addresses and the leg's steps. -/
structure RouteLeg where
  distance : ℚ
  duration : ℚ
  startAddress : String
  endAddress : String
  steps : List DirectionStep
deriving DecidableEq

/-- One route of a Directions-API response. -/
structure Route where
  legs : List RouteLeg
  overviewPolyline : String
deriving DecidableEq

/-- The status field of a Directions-API response body. -/
inductive DirStatus
  | ok
  | zeroResults
  | notFound
  | requestDenied
  | invalidRequest
  | unknown
deriving DecidableEq

/-- A Directions-API response as `getWalkingDirections` inspects it:
the HTTP-level success flag `response.ok`, the body status, and the
routes array. -/
structure DirectionsResponse where
  httpOk : Bool
  status : DirStatus
  routes : List Route
deriving DecidableEq

/-- Errors `getWalkingDirections` can throw. -/
inductive DirectionsError
  | missingApiKey
  | insufficientWaypoints
  | httpError
  | noRouteFound
  | waypointNotLocated
  | accessDenied
  | invalidRequest
  | routeCalculationFailed
  | runtimeError
deriving DecidableEq

/-- The aggregated result returned by `getWalkingDirections`. -/
structure DirectionsResult where
  distance : ℚ
  duration : ℚ
  startAddress : String
  endAddress : String
  waypoints : List Waypoint
  overviewPolyline : String
  steps : List DirectionStep
deriving DecidableEq

/-- The request `getWalkingDirections` sends to the Directions API:
`origin = waypoints[0]`, `destination = waypoints[waypoints.length - 1]`,
`intermediates = waypoints.slice(1, -1)` in original order. -/
structure DirectionsRequest where
  origin : Waypoint
  destination : Waypoint
  intermediates : List Waypoint
deriving DecidableEq

/-- The request-construction phase of `getWalkingDirections`
(directions.ts lines 31-56): fewer than 2 waypoints fail before any
network call; otherwise the first waypoint becomes the origin, the last
the destination, and `slice(1, -1)` the intermediate waypoints. -/
def buildDirectionsRequest (waypoints : List Waypoint) :
    Except DirectionsError DirectionsRequest :=
  match waypoints with
  | w1 :: w2 :: rest =>
      Except.ok
        { origin := w1
          destination := (w2 :: rest).getLast (List.cons_ne_nil w2 rest)
          intermediates := (w2 :: rest).dropLast }
  | _ => Except.error DirectionsError.insufficientWaypoints

/-- `totalDistance += routeLeg.distance.value` folded over `route.legs`. -/
def totalLegDistance (legs : List RouteLeg) : ℚ :=
  legs.foldl (fun acc l => acc + l.distance) 0

/-- `totalDuration += routeLeg.duration.value` folded over `route.legs`. -/
def totalLegDuration (legs : List RouteLeg) : ℚ :=
  legs.foldl (fun acc l => acc + l.duration) 0

/-- `allSteps.push(...)` over every step of every leg, in leg order. -/
def collectSteps (legs : List RouteLeg) : List DirectionStep :=
  legs.foldl (fun acc l => acc ++ l.steps) []

/-- The response-handling phase of `getWalkingDirections`
(directions.ts lines 58-127): status checks, then aggregation of every
leg of the first route into one `DirectionsResult`; the leg-level
addresses are read from `route.legs[0]` only. An empty `legs` array makes
the JavaScript dereference `leg.start_address` throw, modelled as
`runtimeError`. -/
def handleDirectionsResponse (waypoints : List Waypoint)
    (resp : DirectionsResponse) : Except DirectionsError DirectionsResult :=
  if !resp.httpOk then Except.error DirectionsError.httpError
  else
    match resp.status with
    | DirStatus.zeroResults => Except.error DirectionsError.noRouteFound
    | DirStatus.notFound => Except.error DirectionsError.waypointNotLocated
    | DirStatus.requestDenied => Except.error DirectionsError.accessDenied
    | DirStatus.invalidRequest => Except.error DirectionsError.invalidRequest
    | DirStatus.unknown => Except.error DirectionsError.routeCalculationFailed
    | DirStatus.ok =>
      match resp.routes with
      | [] => Except.error DirectionsError.routeCalculationFailed
      | route :: _ =>
        match route.legs with
        | [] => Except.error DirectionsError.runtimeError
        | leg :: _ =>
          Except.ok
            { distance := totalLegDistance route.legs
              duration := totalLegDuration route.legs
              startAddress := leg.startAddress
              endAddress := leg.endAddress
              waypoints := waypoints
              overviewPolyline := route.overviewPolyline
              steps := collectSteps route.legs }

/-- `getWalkingDirections` (directions.ts lines 26-134) with the external
Directions service abstracted as a response function; the second component
records whether the service was actually called. -/
def getWalkingDirections (hasApiKey : Bool) (waypoints : List Waypoint)
    (respond : DirectionsRequest → DirectionsResponse) :
    Except DirectionsError DirectionsResult × Bool :=
  if !hasApiKey then (Except.error DirectionsError.missingApiKey, false)
  else
    match buildDirectionsRequest waypoints with
    | Except.error e => (Except.error e, false)
    | Except.ok req => (handleDirectionsResponse waypoints (respond req), true)

/-- The preferences value consumed by `generateCustomRouteAction`; the
declaring module (`src/lib/ai/openai.ts`) is outside the provided sources,
but the action only reads its numeric `distance` field (requested
kilometres). -/
structure RoutePreferences where
  distance : ℚ

/-- Errors `generateCustomRouteAction` can raise itself, one per thrown
message of the action. -/
inductive ActionError
  | featureDisabled
  | unauthorized
  | emptyLocation
  | invalidLocation
  | invalidDistance
deriving DecidableEq

/-- JavaScript `String.prototype.trim()`: strip leading and trailing
whitespace characters. -/
def jsTrim (s : String) : String :=
  ⟨((s.data.dropWhile Char.isWhitespace).reverse.dropWhile Char.isWhitespace).reverse⟩

/-- The ambient context of the server action: the
`AI_RECOMMENDATIONS_ENABLED === 'true'` feature flag and the
authenticated user, if any. -/
structure ActionEnv where
  aiEnabled : Bool
  user : Option Nat

/-- `generateCustomRouteAction` (actions.ts lines 50-91) with the
route-generation pipeline (`generateCustomRoute`) abstracted as a
function; the second component records whether the pipeline was invoked.
Checks run in source order: feature flag, authentication, empty location,
short location, distance range, then the pipeline on the trimmed
location. -/
def generateCustomRouteAction {α : Type} (env : ActionEnv) (location : String)
    (preferences : RoutePreferences)
    (pipeline : String → RoutePreferences → Except ActionError α) :
    Except ActionError α × Bool :=
  if !env.aiEnabled then (Except.error ActionError.featureDisabled, false)
  else if env.user.isNone then (Except.error ActionError.unauthorized, false)
  else if (jsTrim location).length = 0 then (Except.error ActionError.emptyLocation, false)
  else if (jsTrim location).length < 2 then (Except.error ActionError.invalidLocation, false)
  else if preferences.distance < 1 ∨ 10 < preferences.distance then
    (Except.error ActionError.invalidDistance, false)
  else (pipeline (jsTrim location) preferences, true)

/-- Two-argument arctangent as `Math.atan2(y, x)`: the argument of the
complex number `x + y*i`. -/
noncomputable def atan2 (y x : ℝ) : ℝ :=
  Complex.arg ⟨x, y⟩

/-- The intermediate `a` of `calculateDistance` (geocoding.ts lines
98-100): `sin(dphi/2)^2 + cos(phi1)*cos(phi2)*sin(dlam/2)^2` where
`phi1`, `phi2` are the latitudes in radians and `dphi`, `dlam` the
latitude and longitude differences in radians. -/
noncomputable def haversineTerm (coord1 coord2 : Coordinates) : ℝ :=
  Real.sin (((coord2.lat : ℝ) - (coord1.lat : ℝ)) * Real.pi / 180 / 2) *
      Real.sin (((coord2.lat : ℝ) - (coord1.lat : ℝ)) * Real.pi / 180 / 2) +
    Real.cos ((coord1.lat : ℝ) * Real.pi / 180) *
      Real.cos ((coord2.lat : ℝ) * Real.pi / 180) *
      (Real.sin (((coord2.lng : ℝ) - (coord1.lng : ℝ)) * Real.pi / 180 / 2) *
        Real.sin (((coord2.lng : ℝ) - (coord1.lng : ℝ)) * Real.pi / 180 / 2))

/-- `calculateDistance` (geocoding.ts lines 91-105): haversine great-circle
distance in meters (`R = 6371e3`), with the float arithmetic idealised
over the reals: `R * (2 * atan2(sqrt(a), sqrt(1-a)))`. -/
noncomputable def calculateDistance (coord1 coord2 : Coordinates) : ℝ :=
  6371000 *
    (2 * atan2 (Real.sqrt (haversineTerm coord1 coord2))
      (Real.sqrt (1 - haversineTerm coord1 coord2)))

/-- A park entry used to exhibit the merge/dedup behaviour. -/
def parkVersion : Place :=
  { placeId := "shared-id"
    name := "Green Park"
    location := { lat := 51, lng := -2 }
    vicinity := "High Street"
    rating := some 4
    userRatingsTotal := some 120
    types := ["park"]
    openingHoursOpenNow := none
    distanceFromStart := 250 }

/-- A dog-park entry with the same `placeId` as `parkVersion` but
different remaining fields. -/
def dogParkVersion : Place :=
  { placeId := "shared-id"
    name := "Green Park Dog Area"
    location := { lat := 51, lng := -2 }
    vicinity := "High Street"
    rating := none
    userRatingsTotal := none
    types := ["dog_park"]
    openingHoursOpenNow := none
    distanceFromStart := 250 }

/-- The duplicated key of `parkVersion` and `dogParkVersion`. -/
def sharedId : String := "shared-id"

/-- A nearby place with no rating. -/
def unratedNear : Place :=
  { placeId := "unrated-near"
    name := "Canal Path"
    location := { lat := 51, lng := -2 }
    vicinity := ""
    rating := none
    userRatingsTotal := none
    types := []
    openingHoursOpenNow := none
    distanceFromStart := 100 }

/-- A distant place rated 5. -/
def ratedFar : Place :=
  { placeId := "rated-far"
    name := "Victoria Park"
    location := { lat := 51, lng := -2 }
    vicinity := ""
    rating := some 5
    userRatingsTotal := some 500
    types := ["park"]
    openingHoursOpenNow := none
    distanceFromStart := 1000 }

/-- A place rated 4 located exactly at the search origin
(`distanceFromStart = 0`). -/
def ratedNearZero : Place :=
  { placeId := "rated-at-origin"
    name := "Origin Cafe"
    location := { lat := 51, lng := -2 }
    vicinity := ""
    rating := some 4
    userRatingsTotal := some 10
    types := ["cafe"]
    openingHoursOpenNow := none
    distanceFromStart := 0 }

/-- A place rated 4 at 900m. -/
def ratedFarHigh : Place :=
  { placeId := "rated-far-high"
    name := "Hill Park"
    location := { lat := 51, lng := -2 }
    vicinity := ""
    rating := some 4
    userRatingsTotal := some 80
    types := ["park"]
    openingHoursOpenNow := none
    distanceFromStart := 900 }

/-- The spec's ranking example A: rating 4.8 at 1000m. -/
def specPlaceA : Place :=
  { placeId := "spec-a"
    name := "Spec Park A"
    location := { lat := 51, lng := -2 }
    vicinity := ""
    rating := some (24/5)
    userRatingsTotal := some 100
    types := ["park"]
    openingHoursOpenNow := none
    distanceFromStart := 1000 }

/-- The spec's ranking example B: rating 4.0 at 100m. -/
def specPlaceB : Place :=
  { placeId := "spec-b"
    name := "Spec Park B"
    location := { lat := 51, lng := -2 }
    vicinity := ""
    rating := some 4
    userRatingsTotal := some 100
    types := ["park"]
    openingHoursOpenNow := none
    distanceFromStart := 100 }

/-- The spec's ranking example C: rating 4.3 at 900m. -/
def specPlaceC : Place :=
  { placeId := "spec-c"
    name := "Spec Park C"
    location := { lat := 51, lng := -2 }
    vicinity := ""
    rating := some (43/10)
    userRatingsTotal := some 100
    types := ["park"]
    openingHoursOpenNow := none
    distanceFromStart := 900 }

/-- The spec's ranking example D: rating 4.1 at 100m. -/
def specPlaceD : Place :=
  { placeId := "spec-d"
    name := "Spec Park D"
    location := { lat := 51, lng := -2 }
    vicinity := ""
    rating := some (41/10)
    userRatingsTotal := some 100
    types := ["park"]
    openingHoursOpenNow := none
    distanceFromStart := 100 }

/-- A start waypoint used by the C8 witness. -/
def wpStart : Waypoint := { lat := 51, lng := -2, name := "Start" }

/-- A middle waypoint used by the C8 witness. -/
def wpMid : Waypoint := { lat := 52, lng := -2, name := "Park" }

/-- An end waypoint used by the C8 witness. -/
def wpEnd : Waypoint := { lat := 51, lng := -3, name := "End" }

/-- A fixed external directions service used by the C8 witness. -/
def constRespond : DirectionsRequest → DirectionsResponse :=
  fun _ => ⟨true, DirStatus.ok, []⟩

/-- A location string used by the C7 witness. -/
def witnessLocation : String := "Bradford on Avon"

/-- A pipeline stub used by the C7 witness. -/
def witnessPipeline : String → RoutePreferences → Except ActionError ℕ :=
  fun _ _ => Except.ok 0

/-! ## Theorems -/

/-- C1 counterexample: with the parks and dog-park searches succeeding and
the cafe search failing with an access-denied error, `findAllDogWalkingPOIs`
fails, refuting the claimed partial-failure tolerance. -/
theorem findAllDogWalkingPOIs_partialFailure_cex :
    exceptOk (findAllDogWalkingPOIs (Except.ok [])
      (Except.error SearchError.requestDenied) (Except.ok [])) = false :=
  rfl

/-- C1 (amended): the aggregate POI call succeeds exactly when all three
category searches succeed; any single failing category search makes the
aggregate call fail (`Promise.all` semantics). -/
theorem findAllDogWalkingPOIs_ok_iff
    (parks cafes dogParks : Except SearchError (List Place)) :
    exceptOk (findAllDogWalkingPOIs parks cafes dogParks) =
      (exceptOk parks && exceptOk cafes && exceptOk dogParks) := by
  cases parks <;> cases cafes <;> cases dogParks <;> rfl

lemma hasKey_eq_false_iff (m : List Place) (pid : String) :
    hasKey m pid = false ↔ pid ∉ m.map Place.placeId := by
  constructor
  · intro h hmem
    rw [List.mem_map] at hmem
    obtain ⟨q, hq, hqe⟩ := hmem
    have ht : hasKey m pid = true := by
      rw [hasKey, List.any_eq_true]
      exact ⟨q, hq, beq_iff_eq.mpr hqe⟩
    rw [h] at ht
    exact Bool.false_ne_true ht
  · intro h
    by_contra hne
    have ht : hasKey m pid = true := by
      cases hcase : hasKey m pid
      · exact absurd hcase hne
      · rfl
    rw [hasKey, List.any_eq_true] at ht
    obtain ⟨q, hq, hqe⟩ := ht
    exact h (List.mem_map.mpr ⟨q, hq, beq_iff_eq.mp hqe⟩)

lemma filterKey_eq_nil (m : List Place) (pid : String)
    (h : pid ∉ m.map Place.placeId) : filterKey m pid = [] := by
  rw [filterKey, List.filter_eq_nil_iff]
  intro q hq
  simp only [beq_iff_eq]
  intro hqe
  exact h (List.mem_map.mpr ⟨q, hq, hqe⟩)

lemma insertKeyed_map_placeId (m : List Place) (p : Place)
    (h : hasKey m p.placeId = true) :
    (insertKeyed m p).map Place.placeId = m.map Place.placeId := by
  rw [insertKeyed, if_pos h, List.map_map]
  apply List.map_congr_left
  intro q _
  simp only [Function.comp_apply]
  by_cases hq : q.placeId = p.placeId
  · simp [hq]
  · simp [hq]

lemma insertKeyed_nodup (m : List Place) (p : Place)
    (h : (m.map Place.placeId).Nodup) :
    ((insertKeyed m p).map Place.placeId).Nodup := by
  by_cases hk : hasKey m p.placeId
  · rw [insertKeyed_map_placeId m p hk]
    exact h
  · rw [insertKeyed, if_neg hk, List.map_append]
    rw [List.nodup_append]
    refine ⟨h, List.nodup_singleton _, ?_⟩
    intro x hx hx'
    simp only [List.map_cons, List.map_nil, List.mem_singleton] at hx'
    subst hx'
    exact (hasKey_eq_false_iff m p.placeId).mp (Bool.eq_false_iff.mpr hk) hx

lemma filter_map_keep {f : Place → Place} {pred : Place → Bool}
    (h1 : ∀ q, pred (f q) = pred q) (h2 : ∀ q, pred q = true → f q = q) :
    ∀ m : List Place, (m.map f).filter pred = m.filter pred := by
  intro m
  induction m with
  | nil => rfl
  | cons q rest ih =>
    simp only [List.map_cons, List.filter_cons, h1 q]
    by_cases hq : pred q = true
    · rw [if_pos hq, if_pos hq, h2 q hq, ih]
    · rw [if_neg hq, if_neg hq, ih]

lemma filter_map_replace (p : Place) (pid : String) (hp : p.placeId = pid) :
    ∀ m : List Place, (m.map Place.placeId).Nodup → hasKey m p.placeId = true →
    filterKey (m.map (fun q => if q.placeId == p.placeId then p else q)) pid = [p] := by
  intro m
  induction m with
  | nil => intro _ hk; simp [hasKey] at hk
  | cons q rest ih =>
    intro hnd hk
    simp only [List.map_cons, List.nodup_cons] at hnd
    obtain ⟨hqnot, hndrest⟩ := hnd
    by_cases hq : q.placeId = p.placeId
    · have hrepl : (if q.placeId == p.placeId then p else q) = p := by simp [hq]
      simp only [List.map_cons, hrepl, filterKey, List.filter_cons]
      have hpred : (p.placeId == pid) = true := by simp [hp]
      rw [if_pos hpred]
      have hrest : pid ∉ rest.map Place.placeId := by
        rw [← hp, ← hq]
        exact hqnot
      have hmapped : rest.map (fun q => if q.placeId == p.placeId then p else q) = rest := by
        conv_rhs => rw [← List.map_id rest]
        apply List.map_congr_left
        intro r hr
        have : r.placeId ≠ p.placeId := by
          intro he
          rw [← hq] at he
          exact hqnot (he ▸ List.mem_map_of_mem Place.placeId hr)
        simp [this]
      rw [hmapped]
      have := filterKey_eq_nil rest pid hrest
      rw [filterKey] at this
      rw [this]
    · have hrepl : (if q.placeId == p.placeId then p else q) = q := by simp [hq]
      simp only [List.map_cons, hrepl, filterKey, List.filter_cons]
      have hpred : (q.placeId == pid) = false := by
        simp only [beq_eq_false_iff_ne, ne_eq]
        intro he
        rw [← hp] at he
        exact hq he
      rw [hpred]
      simp only [Bool.false_eq_true, if_false]
      have hkrest : hasKey rest p.placeId = true := by
        simp only [hasKey, List.any_cons] at hk
        rcases Bool.or_eq_true_iff.mp hk with h | h
        · exact absurd (beq_iff_eq.mp h) hq
        · exact h
      have := ih hndrest hkrest
      rw [filterKey] at this
      exact this

lemma filterKey_insertKeyed (m : List Place) (p : Place) (pid : String)
    (hnd : (m.map Place.placeId).Nodup) :
    filterKey (insertKeyed m p) pid =
      if p.placeId = pid then [p] else filterKey m pid := by
  by_cases hk : hasKey m p.placeId
  · rw [insertKeyed, if_pos hk]
    by_cases hp : p.placeId = pid
    · rw [if_pos hp]
      exact filter_map_replace p pid hp m hnd hk
    · rw [if_neg hp, filterKey, filterKey]
      apply filter_map_keep
      · intro q
        by_cases hq : q.placeId = p.placeId
        · have h1 : (q.placeId == pid) = false := by
            simp only [beq_eq_false_iff_ne, ne_eq, hq]
            exact hp
          have h2 : (p.placeId == pid) = false := by
            simp only [beq_eq_false_iff_ne, ne_eq]
            exact hp
          simp [hq, h1, h2]
        · simp [hq]
      · intro q hq
        have hqpid : q.placeId = pid := beq_iff_eq.mp hq
        have : q.placeId ≠ p.placeId := by
          intro he
          apply hp
          rw [← he]
          exact hqpid
        simp [this]
  · rw [insertKeyed, if_neg hk, filterKey, List.filter_append]
    have hnotin : p.placeId ∉ m.map Place.placeId :=
      (hasKey_eq_false_iff m p.placeId).mp (Bool.eq_false_iff.mpr hk)
    by_cases hp : p.placeId = pid
    · rw [if_pos hp]
      have : List.filter (fun q => q.placeId == pid) m = [] := by
        have := filterKey_eq_nil m pid (hp ▸ hnotin)
        rwa [filterKey] at this
      rw [this]
      simp [hp]
    · rw [if_neg hp]
      have : List.filter (fun q => q.placeId == pid) [p] = [] := by
        simp [hp]
      rw [this, List.append_nil, filterKey]

lemma dedupByPlaceId_concat (ps : List Place) (p : Place) :
    dedupByPlaceId (ps ++ [p]) = insertKeyed (dedupByPlaceId ps) p := by
  rw [dedupByPlaceId, dedupByPlaceId, List.foldl_append]
  rfl

lemma dedupByPlaceId_keys_nodup (ps : List Place) :
    ((dedupByPlaceId ps).map Place.placeId).Nodup := by
  induction ps using List.reverseRecOn with
  | nil => simp [dedupByPlaceId]
  | append_singleton l a ih =>
    rw [dedupByPlaceId_concat]
    exact insertKeyed_nodup _ _ ih

lemma dedupByPlaceId_filterKey (ps : List Place) (pid : String) :
    filterKey (dedupByPlaceId ps) pid =
      match (filterKey ps pid).getLast? with
      | none => []
      | some p => [p] := by
  induction ps using List.reverseRecOn with
  | nil => rfl
  | append_singleton l a ih =>
    rw [dedupByPlaceId_concat,
      filterKey_insertKeyed _ _ _ (dedupByPlaceId_keys_nodup l)]
    by_cases ha : a.placeId = pid
    · rw [if_pos ha]
      have hsplit : filterKey (l ++ [a]) pid = filterKey l pid ++ [a] := by
        rw [filterKey, List.filter_append, filterKey]
        congr 1
        simp [ha]
      rw [hsplit, List.getLast?_concat]
    · rw [if_neg ha, ih]
      have hsplit : filterKey (l ++ [a]) pid = filterKey l pid := by
        rw [filterKey, List.filter_append, filterKey]
        have : List.filter (fun q => q.placeId == pid) [a] = [] := by simp [ha]
        rw [this, List.append_nil]
      rw [hsplit]

/-- C3 (amended): when a placeId occurs in the concatenated
parks-then-cafes-then-dogParks list, the single entry retained for it by
the merge/dedup is the *last* occurrence in that order (a later `Map.set`
overwrites the value stored for an existing key). -/
theorem merge_keeps_last_occurrence (parks cafes dogParks : List Place)
    (pid : String) (p : Place)
    (h : (filterKey (parks ++ cafes ++ dogParks) pid).getLast? = some p) :
    filterKey (dedupByPlaceId (parks ++ cafes ++ dogParks)) pid = [p] := by
  rw [dedupByPlaceId_filterKey, h]

/-- C3 counterexample: a placeId occurring in both the parks list and the
dogParks list is retained as the dog-park (last) occurrence, not the park
(first) occurrence, refuting the claim as stated. -/
theorem merge_first_occurrence_cex :
    dedupByPlaceId ([parkVersion] ++ [] ++ [dogParkVersion]) = [dogParkVersion] ∧
      parkVersion ≠ dogParkVersion := by
  constructor
  · rfl
  · decide

/-- C3 witness: on the concrete duplicated input, the last occurrence is
what the merge retains. -/
theorem merge_keeps_last_occurrence_witness :
    (filterKey ([parkVersion] ++ [] ++ [dogParkVersion]) sharedId).getLast? =
      some dogParkVersion ∧
    filterKey (dedupByPlaceId ([parkVersion] ++ [] ++ [dogParkVersion])) sharedId =
      [dogParkVersion] := by
  refine ⟨?_, merge_keeps_last_occurrence [parkVersion] [] [dogParkVersion]
    sharedId dogParkVersion ?_⟩ <;> rfl

/-- C5: in the merged list every placeId appears at most once, and exactly
once when it occurs anywhere in the three concatenated category lists. -/
theorem merged_placeId_unique (parks cafes dogParks : List Place) (pid : String) :
    (filterKey (dedupByPlaceId (parks ++ cafes ++ dogParks)) pid).length =
      min 1 (filterKey (parks ++ cafes ++ dogParks) pid).length := by
  rw [dedupByPlaceId_filterKey]
  rcases h : (filterKey (parks ++ cafes ++ dogParks) pid).getLast? with _ | p
  · rw [List.getLast?_eq_none_iff.mp h]
    rfl
  · have : filterKey (parks ++ cafes ++ dogParks) pid ≠ [] := by
      intro he
      rw [he] at h
      exact Option.noConfusion h
    have hlen : 1 ≤ (filterKey (parks ++ cafes ++ dogParks) pid).length :=
      Nat.one_le_iff_ne_zero.mpr (fun hz => this (List.eq_nil_of_length_eq_zero hz))
    simp only [List.length_cons, List.length_nil]
    omega

lemma compareQ_gt_iff {x y : ℚ} : compareQ x y = Ordering.gt ↔ y < x := by
  rw [compareQ]
  split_ifs with h1 h2
  · constructor
    · intro hc
      exact absurd hc (by decide)
    · intro hy
      exact absurd hy (lt_asymm h1)
  · constructor
    · intro _
      exact h2
    · intro _
      rfl
  · constructor
    · intro hc
      exact absurd hc (by decide)
    · intro hy
      exact absurd hy h2

lemma sortPlaces_pair (a b : Place) :
    sortPlaces [a, b] =
      if comparePlaces a b = Ordering.gt then [b, a] else [a, b] := by
  simp [sortPlaces, insertPlace]

lemma sortPair_byDist (a b : Place) (hcmp : comparePlaces a b = compareDist a b)
    (ha : 0 < a.distanceFromStart) (hb : 0 < b.distanceFromStart) :
    sortPlaces [a, b] =
      if b.distanceFromStart < a.distanceFromStart then [b, a] else [a, b] := by
  have hea : effDist a = some a.distanceFromStart := by
    rw [effDist, if_neg ha.ne']
  have heb : effDist b = some b.distanceFromStart := by
    rw [effDist, if_neg hb.ne']
  have hcd : compareDist a b = compareQ a.distanceFromStart b.distanceFromStart := by
    unfold compareDist
    rw [hea, heb]
  rw [sortPlaces_pair, hcmp, hcd]
  by_cases hd : b.distanceFromStart < a.distanceFromStart
  · rw [if_pos (compareQ_gt_iff.mpr hd), if_pos hd]
  · rw [if_neg (fun hc => hd (compareQ_gt_iff.mp hc)), if_neg hd]

/-- C2 counterexample: an unrated place 100m away sorts *before* a place
rated 5 that is 1000m away, refuting the claim that every unrated
candidate sorts after every rated candidate. -/
theorem unrated_deprioritized_cex :
    unratedNear.rating = none ∧ ratedFar.rating = some 5 ∧
    sortPlaces [unratedNear, ratedFar] = [unratedNear, ratedFar] ∧
    unratedNear ≠ ratedFar := by
  refine ⟨rfl, rfl, rfl, by decide⟩

/-- C2 (amended): candidates with no rating are not deprioritized below
rated candidates; whenever at least one of the two candidates has a falsy
rating the pair is ordered by `distanceFromOrigin` alone (for positive
distances), which in particular orders unrated candidates by distance
among themselves. -/
theorem unrated_pairs_ordered_by_distance (a b : Place)
    (h : truthyRating a.rating = false ∨ truthyRating b.rating = false)
    (ha : 0 < a.distanceFromStart) (hb : 0 < b.distanceFromStart) :
    sortPlaces [a, b] =
      if b.distanceFromStart < a.distanceFromStart then [b, a] else [a, b] := by
  apply sortPair_byDist _ _ _ ha hb
  rcases h with h | h <;> simp [comparePlaces, h]

/-- C2 witness: the unrated nearby place and the rated distant place are
ordered purely by distance, in either input order. -/
theorem unrated_pairs_ordered_by_distance_witness :
    sortPlaces [ratedFar, unratedNear] = [unratedNear, ratedFar] := by
  have h := unrated_pairs_ordered_by_distance ratedFar unratedNear
    (Or.inr rfl) (by decide) (by decide)
  rw [h, if_pos (by decide)]

/-- C6 counterexample: two rated candidates with rating gap 0 (at most
0.5) are *not* ordered by smaller distance first when the smaller distance
is exactly 0: the falsy `0` is replaced by `Infinity`, so the candidate at
the origin sorts last. -/
theorem rated_pair_distance_cex :
    ratedNearZero.rating = some 4 ∧ ratedFarHigh.rating = some 4 ∧
    |(4 : ℚ) - 4| ≤ 1/2 ∧
    ratedNearZero.distanceFromStart < ratedFarHigh.distanceFromStart ∧
    sortPlaces [ratedNearZero, ratedFarHigh] = [ratedFarHigh, ratedNearZero] ∧
    ratedFarHigh ≠ ratedNearZero := by
  refine ⟨rfl, rfl, by norm_num, by norm_num [ratedNearZero, ratedFarHigh], ?_, by decide⟩
  have hcmp : comparePlaces ratedNearZero ratedFarHigh = Ordering.gt := by
    unfold comparePlaces
    have h1 : (truthyRating ratedNearZero.rating && truthyRating ratedFarHigh.rating) = true := by
      decide
    rw [h1, if_pos rfl, if_neg]
    · decide
    · norm_num [ratedNearZero, ratedFarHigh]
  rw [sortPlaces_pair, hcmp, if_pos rfl]

/-- C6 (amended): for two candidates with truthy (nonzero) ratings, a
rating gap above 0.5 puts the higher-rated candidate first regardless of
distance; with a gap of at most 0.5 the pair is ordered by
`distanceFromOrigin` when both distances are positive (a distance of
exactly 0 is treated as infinite). -/
theorem rated_pair_ranking (a b : Place) (ra rb : ℚ)
    (hra : a.rating = some ra) (hrb : b.rating = some rb)
    (hra0 : ra ≠ 0) (hrb0 : rb ≠ 0) :
    (1/2 < |rb - ra| →
      sortPlaces [a, b] = if rb < ra then [a, b] else [b, a]) ∧
    (|rb - ra| ≤ 1/2 → 0 < a.distanceFromStart → 0 < b.distanceFromStart →
      sortPlaces [a, b] =
        if b.distanceFromStart < a.distanceFromStart then [b, a] else [a, b]) := by
  have hta : truthyRating a.rating = true := by
    rw [hra]
    simp [truthyRating, hra0]
  have htb : truthyRating b.rating = true := by
    rw [hrb]
    simp [truthyRating, hrb0]
  constructor
  · intro hgap
    rw [sortPlaces_pair]
    have hcmp : comparePlaces a b = compareQ (rb - ra) 0 := by
      unfold comparePlaces
      rw [hta, htb, hra, hrb]
      simp only [Option.getD_some, Bool.and_self]
      rw [if_true, if_pos hgap]
    rw [hcmp]
    rcases lt_trichotomy ra rb with hlt | heq | hgt
    · rw [if_pos (compareQ_gt_iff.mpr (by linarith)), if_neg (by linarith)]
    · exfalso
      rw [heq, sub_self, abs_zero] at hgap
      exact absurd hgap (by norm_num)
    · rw [if_neg (fun hc => absurd (compareQ_gt_iff.mp hc) (by linarith)), if_pos hgt]
  · intro hgap ha hb
    apply sortPair_byDist _ _ _ ha hb
    unfold comparePlaces
    rw [hta, htb, hra, hrb]
    simp only [Option.getD_some, Bool.and_self]
    rw [if_true, if_neg (not_lt.mpr hgap)]

/-- C6 witness: the spec's two worked examples — A (4.8, 1000m) before
B (4.0, 100m) because the gap exceeds 0.5, and D (4.1, 100m) before
C (4.3, 900m) because the gap is at most 0.5 and D is nearer. -/
theorem rated_pair_ranking_witness :
    sortPlaces [specPlaceA, specPlaceB] = [specPlaceA, specPlaceB] ∧
    sortPlaces [specPlaceD, specPlaceC] = [specPlaceD, specPlaceC] := by
  constructor
  · have h := (rated_pair_ranking specPlaceA specPlaceB (24/5) 4 rfl rfl
      (by norm_num) (by norm_num)).1
      (by rw [abs_sub_comm, abs_of_nonneg (by norm_num)]; norm_num)
    rw [h, if_pos (by norm_num)]
  · have h := (rated_pair_ranking specPlaceD specPlaceC (41/10) (43/10) rfl rfl
      (by norm_num) (by norm_num)).2
      (by rw [abs_of_nonneg (by norm_num)]; norm_num)
      (by norm_num [specPlaceD]) (by norm_num [specPlaceC])
    rw [h, if_neg (by norm_num [specPlaceC, specPlaceD])]

lemma foldl_add_proj (f : RouteLeg → ℚ) :
    ∀ (legs : List RouteLeg) (init : ℚ),
      legs.foldl (fun acc l => acc + f l) init = init + (legs.map f).sum := by
  intro legs
  induction legs with
  | nil => intro init; simp
  | cons l rest ih =>
    intro init
    simp only [List.foldl_cons, List.map_cons, List.sum_cons, ih, add_assoc]

lemma foldl_append_steps :
    ∀ (legs : List RouteLeg) (init : List DirectionStep),
      legs.foldl (fun acc l => acc ++ l.steps) init =
        init ++ (legs.map RouteLeg.steps).flatten := by
  intro legs
  induction legs with
  | nil => intro init; simp
  | cons l rest ih =>
    intro init
    simp only [List.foldl_cons, List.map_cons, List.flatten_cons, ih,
      List.append_assoc]

lemma totalLegDistance_eq (legs : List RouteLeg) :
    totalLegDistance legs = (legs.map RouteLeg.distance).sum := by
  rw [totalLegDistance, foldl_add_proj, zero_add]

lemma totalLegDuration_eq (legs : List RouteLeg) :
    totalLegDuration legs = (legs.map RouteLeg.duration).sum := by
  rw [totalLegDuration, foldl_add_proj, zero_add]

lemma collectSteps_eq (legs : List RouteLeg) :
    collectSteps legs = (legs.map RouteLeg.steps).flatten := by
  rw [collectSteps, foldl_append_steps, List.nil_append]

/-- C4: for a successful multi-leg response, the aggregated result's total
distance and duration are the sums over the legs, and its step list is the
concatenation of the legs' step lists in leg order, so its length is the
sum of the per-leg step counts. -/
theorem directions_aggregation (ws : List Waypoint) (leg : RouteLeg)
    (ltl : List RouteLeg) (poly : String) (rts : List Route) :
    ∃ r, handleDirectionsResponse ws
        ⟨true, DirStatus.ok, ⟨leg :: ltl, poly⟩ :: rts⟩ = Except.ok r ∧
      r.distance = ((leg :: ltl).map RouteLeg.distance).sum ∧
      r.duration = ((leg :: ltl).map RouteLeg.duration).sum ∧
      r.steps = ((leg :: ltl).map RouteLeg.steps).flatten ∧
      r.steps.length = ((leg :: ltl).map (fun l => l.steps.length)).sum := by
  refine ⟨_, rfl, ?_, ?_, ?_, ?_⟩
  · exact totalLegDistance_eq (leg :: ltl)
  · exact totalLegDuration_eq (leg :: ltl)
  · exact collectSteps_eq (leg :: ltl)
  · show (collectSteps (leg :: ltl)).length = _
    rw [collectSteps_eq, List.length_flatten, List.map_map]
    rfl

/-- C9: both the start address and the end address of a successful
`DirectionsResult` come from the *first* leg (`route.legs[0]`); for a
multi-leg route the reported end address is therefore the first leg's end
address, not the final leg's. -/
theorem directions_addresses_from_first_leg (ws : List Waypoint)
    (leg : RouteLeg) (ltl : List RouteLeg) (poly : String) (rts : List Route) :
    ∃ r, handleDirectionsResponse ws
        ⟨true, DirStatus.ok, ⟨leg :: ltl, poly⟩ :: rts⟩ = Except.ok r ∧
      r.startAddress = leg.startAddress ∧ r.endAddress = leg.endAddress :=
  ⟨_, rfl, rfl, rfl⟩

/-- C8: with fewer than 2 waypoints, route calculation fails with the
insufficient-waypoints error without calling the directions service; with
at least 2, the service is called once with the first waypoint as origin,
the last as destination, and the remaining waypoints in between, in
order. -/
theorem route_calculation_waypoint_split (waypoints : List Waypoint)
    (respond : DirectionsRequest → DirectionsResponse) :
    (waypoints.length < 2 →
      getWalkingDirections true waypoints respond =
        (Except.error DirectionsError.insufficientWaypoints, false)) ∧
    (∀ w1 w2 rest, waypoints = w1 :: w2 :: rest →
      getWalkingDirections true waypoints respond =
        (handleDirectionsResponse waypoints
          (respond
            { origin := w1
              destination := (w2 :: rest).getLast (List.cons_ne_nil w2 rest)
              intermediates := (w2 :: rest).dropLast }), true)) := by
  constructor
  · intro h
    match waypoints with
    | [] => rfl
    | [_] => rfl
    | w1 :: w2 :: rest =>
      simp only [List.length_cons] at h
      omega
  · intro w1 w2 rest h
    subst h
    rfl

/-- C8 witness: a single waypoint fails before the service is called, and
three waypoints call the service with origin `wpStart`, destination
`wpEnd` and intermediates `[wpMid]`. -/
theorem route_calculation_waypoint_split_witness :
    getWalkingDirections true [wpStart] constRespond =
      (Except.error DirectionsError.insufficientWaypoints, false) ∧
    getWalkingDirections true [wpStart, wpMid, wpEnd] constRespond =
      (handleDirectionsResponse [wpStart, wpMid, wpEnd]
        (constRespond
          { origin := wpStart, destination := wpEnd, intermediates := [wpMid] }),
        true) := by
  constructor
  · exact (route_calculation_waypoint_split [wpStart] constRespond).1
      (by simp)
  · exact (route_calculation_waypoint_split [wpStart, wpMid, wpEnd]
      constRespond).2 wpStart wpMid [wpEnd] rfl

/-- C7: once the feature flag, authentication and location checks pass,
a requested distance in [1,10] passes validation and the pipeline runs on
the trimmed location, while any distance outside [1,10] fails with the
distance-validation error and the pipeline is never invoked. -/
theorem distance_validation_gate {α : Type} (env : ActionEnv) (location : String)
    (preferences : RoutePreferences)
    (pipeline : String → RoutePreferences → Except ActionError α)
    (hflag : env.aiEnabled = true) (huser : env.user.isSome = true)
    (hloc : 2 ≤ (jsTrim location).length) :
    ((1 ≤ preferences.distance ∧ preferences.distance ≤ 10) →
      generateCustomRouteAction env location preferences pipeline =
        (pipeline (jsTrim location) preferences, true)) ∧
    ((preferences.distance < 1 ∨ 10 < preferences.distance) →
      generateCustomRouteAction env location preferences pipeline =
        (Except.error ActionError.invalidDistance, false)) := by
  have husernone : env.user.isNone = false := by
    cases h : env.user with
    | none => rw [h] at huser; exact absurd huser (by simp)
    | some u => rfl
  have h0 : ¬ ((jsTrim location).length = 0) := by omega
  have h2 : ¬ ((jsTrim location).length < 2) := by omega
  unfold generateCustomRouteAction
  rw [hflag, husernone]
  simp only [Bool.not_true, Bool.false_eq_true, if_false]
  rw [if_neg h0, if_neg h2]
  constructor
  · intro hd
    rw [if_neg]
    push_neg
    exact ⟨by linarith [hd.1], by linarith [hd.2]⟩
  · intro hd
    rw [if_pos hd]

/-- C7 witness: with the flag on, a user present and a valid location, a
2 km request reaches the pipeline and a 20 km request fails with the
distance-validation error without the pipeline running. -/
theorem distance_validation_gate_witness :
    generateCustomRouteAction ⟨true, some 0⟩ witnessLocation ⟨2⟩ witnessPipeline =
      (witnessPipeline (jsTrim witnessLocation) ⟨2⟩, true) ∧
    generateCustomRouteAction ⟨true, some 0⟩ witnessLocation ⟨20⟩ witnessPipeline =
      (Except.error ActionError.invalidDistance, false) := by
  constructor
  · exact (distance_validation_gate ⟨true, some 0⟩ witnessLocation ⟨2⟩
      witnessPipeline rfl rfl (by decide)).1 (by norm_num)
  · exact (distance_validation_gate ⟨true, some 0⟩ witnessLocation ⟨20⟩
      witnessPipeline rfl rfl (by decide)).2 (by norm_num)

lemma haversineTerm_symm (a b : Coordinates) :
    haversineTerm a b = haversineTerm b a := by
  unfold haversineTerm
  have h1 : ((b.lat : ℝ) - (a.lat : ℝ)) * Real.pi / 180 / 2 =
      -(((a.lat : ℝ) - (b.lat : ℝ)) * Real.pi / 180 / 2) := by ring
  have h2 : ((b.lng : ℝ) - (a.lng : ℝ)) * Real.pi / 180 / 2 =
      -(((a.lng : ℝ) - (b.lng : ℝ)) * Real.pi / 180 / 2) := by ring
  rw [h1, h2]
  simp only [Real.sin_neg]
  ring

lemma haversineTerm_self (a : Coordinates) : haversineTerm a a = 0 := by
  unfold haversineTerm
  simp [sub_self]

lemma haversineTerm_nonneg_atan2 (x : ℝ) (y : ℝ) : 0 ≤ atan2 (Real.sqrt x) y := by
  rw [atan2]
  exact Complex.arg_nonneg_iff.mpr (Real.sqrt_nonneg x)

/-- C10: the haversine `calculateDistance` is symmetric, nonnegative, and
zero on identical coordinates. -/
theorem calculateDistance_metric_properties (a b : Coordinates) :
    calculateDistance a b = calculateDistance b a ∧
    0 ≤ calculateDistance a b ∧
    calculateDistance a a = 0 := by
  refine ⟨?_, ?_, ?_⟩
  · rw [calculateDistance, calculateDistance, haversineTerm_symm]
  · rw [calculateDistance]
    have h := haversineTerm_nonneg_atan2 (haversineTerm a b)
      (Real.sqrt (1 - haversineTerm a b))
    positivity
  · rw [calculateDistance, haversineTerm_self]
    rw [Real.sqrt_zero, sub_zero, Real.sqrt_one]
    have : atan2 0 1 = 0 := by
      rw [atan2]
      have h1 : (⟨1, 0⟩ : ℂ) = 1 := rfl
      rw [h1, Complex.arg_one]
    rw [this]
    ring

end RouteSniffer
